import Mathlib

/-!
Verification of the GamerHelpers API server (server/server.js).

The backend is an Express application over MySQL.  We embed the live
request handlers (the first-registered route for each path, which is the
one Express dispatches to) as pure functions over an explicit database
state.  Conventions of the embedding:

* Each MySQL table becomes a `List` of row structures; `UPDATE ... WHERE`
  becomes a map that rewrites every matching row (`updateWhere`), and
  `SELECT ... WHERE e = ?` with a `rows[0]` read becomes `List.find?`.
* A handler `conn.beginTransaction ... commit/rollback` block becomes a
  total function returning the response together with either the fully
  updated state (commit) or the unchanged input state (rollback), which
  is exactly the atomicity the transaction provides.
* `bcrypt.compare p h` is modelled as string equality of `p` with the
  stored secret, and JWT issuance is dropped: the claims under study
  concern control flow around the comparison, not the hash function.
* JavaScript string operations are modelled structurally over `.data`
  (lists of characters) so that all definitions evaluate inside the
  kernel: `jsTrim` is `.trim()`, and `sanitizeInput` performs the five
  sequential global replacements of the source in one character-wise
  pass, which is equivalent because the five patterns are distinct
  single characters and no replacement text contains a character that a
  later replacement pass rewrites.
* `NOW()` timestamps, JWT/cookie emission, notification message texts
  and the free-text `details` strings of audit rows are omitted: no
  claim mentions them.  Monetary values are embedded as `Rat`; the
  source computes them on IEEE-754 doubles, and claims that depend on
  the rounding behaviour of doubles are outside this embedding.
-/

namespace GamerHelpers

/-- Characters produced for one input character by the XSS-escaping
replacements of `sanitizeInput` (server.js lines 104-109):
`&` to `&amp;`, `<` to `&lt;`, `>` to `&gt;`, `"` to `&quot;`,
apostrophe to `&#x27;`. -/
def escapeChar (c : Char) : List Char :=
  if c = '&' then "&amp;".data
  else if c = '<' then "&lt;".data
  else if c = '>' then "&gt;".data
  else if c = Char.ofNat 34 then "&quot;".data
  else if c = Char.ofNat 39 then "&#x27;".data
  else [c]

/-- JavaScript `String.prototype.trim()`: drop leading and trailing
whitespace (ASCII whitespace suffices for the inputs considered). -/
def jsTrim (s : String) : String :=
  ⟨((s.data.dropWhile Char.isWhitespace).reverse.dropWhile Char.isWhitespace).reverse⟩

/-- server.js `sanitizeInput` (lines 99-111): trim, then escape the five
HTML metacharacters.  The source chains five global `.replace` calls;
since each pattern is a distinct single character and no replacement
text contains a character rewritten by a later pass, the chain equals
this single character-wise pass. -/
def sanitizeInput (input : String) : String :=
  ⟨((jsTrim input).data.map escapeChar).flatten⟩

/-- server.js `validatePassword` (lines 113-123): the trimmed password
must be 8 to 12 characters long.  The source returns a record
`{valid, error}`; we keep the `valid` bit (callers answer 400 on
`false`). -/
def validatePassword (password : String) : Bool :=
  if password = "" then false
  else
    let trimmed := jsTrim password
    decide (8 ≤ trimmed.length) && decide (trimmed.length ≤ 12)

/-- server.js `validateFieldLength` (lines 125-136): the trimmed value
may not exceed `maxLength` (default 100) characters. -/
def validateFieldLength (value : String) (maxLength : Nat := 100) : Bool :=
  decide ((jsTrim value).length ≤ maxLength)

/-- One character of the class `[^\s@]` of the email regular
expression. -/
def emailClassChar (c : Char) : Bool :=
  !(c.isWhitespace || c = '@')

/-- The test of `/^[^\s@]+@[^\s@]+\.[^\s@]+$/` (server.js line 147):
exactly one `@`, a nonempty local part and a nonempty domain of
class characters, and the domain contains a dot that is neither its
first nor its last character (so that both `[^\s@]+` around `\.` are
nonempty). -/
def emailRegexTest (s : String) : Bool :=
  let l := s.data
  let localPart := l.takeWhile (fun c => c ≠ '@')
  match l.dropWhile (fun c => c ≠ '@') with
  | [] => false
  | _ :: domain =>
    decide (localPart ≠ []) && localPart.all emailClassChar &&
    decide (domain ≠ []) && domain.all emailClassChar &&
    ((domain.drop 1).dropLast.contains '.')

/-- server.js `validateEmail` (lines 138-152): required, at most 100
characters once trimmed, and matches the email regular expression. -/
def validateEmail (email : String) : Bool :=
  if email = "" then false
  else
    let trimmed := jsTrim email
    if 100 < trimmed.length then false
    else emailRegexTest trimmed

/-- SQL `UPDATE t SET ... WHERE p`: rewrite every row satisfying `p`. -/
def updateWhere {α : Type} (p : α → Bool) (f : α → α) (l : List α) : List α :=
  l.map (fun a => if p a then f a else a)

-- ==========================================
-- Authentication subsystem (users table as selected by the login
-- handler: id, email, password hash, full_name, is_employee,
-- account_status, failed_login_attempts).
-- ==========================================

/-- The `account_status` column of `users`. -/
inductive AccountStatus
  | active
  | suspended
  | banned
  | blocked
deriving DecidableEq, Repr

/-- A row of the `users` table, restricted to the columns the
authentication endpoints read and write.  `password` stands for the
bcrypt hash; the model verifies a candidate by equality with the
stored secret. -/
structure AuthUser where
  id : Nat
  email : String
  password : String
  full_name : String
  is_employee : Bool
  account_status : AccountStatus
  failed_login_attempts : Nat
deriving DecidableEq, Repr

/-- server.js `MAX_LOGIN_ATTEMPTS` (line 163). -/
def MAX_LOGIN_ATTEMPTS : Nat := 3

/-- server.js `recordFailedLoginAttempt`, users branch (lines 173-192):
increment `failed_login_attempts`, re-read it, and block the account
permanently once it reaches `MAX_LOGIN_ATTEMPTS`.  Returns
`((blocked, attemptsRemaining), users)`. -/
def recordFailedLoginAttempt (users : List AuthUser) (userId : Nat) :
    (Bool × Nat) × List AuthUser :=
  let users1 := updateWhere (fun u => u.id == userId)
    (fun u => { u with failed_login_attempts := u.failed_login_attempts + 1 }) users
  let attempts :=
    ((users1.find? (fun u => u.id == userId)).map (·.failed_login_attempts)).getD 0
  if MAX_LOGIN_ATTEMPTS ≤ attempts then
    ((true, 0),
      updateWhere (fun u => u.id == userId)
        (fun u => { u with account_status := .blocked }) users1)
  else
    ((false, MAX_LOGIN_ATTEMPTS - attempts), users1)

/-- server.js `clearFailedLoginAttempts`, users branch (lines 218-223). -/
def clearFailedLoginAttempts (users : List AuthUser) (userId : Nat) : List AuthUser :=
  updateWhere (fun u => u.id == userId)
    (fun u => { u with failed_login_attempts := 0 }) users

/-- The observable part of a login response: HTTP status, `error`
string, `attemptsRemaining`, `blocked` flag and `success` flag. -/
structure LoginResponse where
  httpStatus : Nat
  error : Option String := none
  attemptsRemaining : Option Nat := none
  blocked : Bool := false
  success : Bool := false
deriving DecidableEq, Repr

/-- Result of one login attempt: the response, whether the handler
reached the `bcrypt.compare` call (server.js line 459), and the users
table afterwards. -/
structure LoginResult where
  resp : LoginResponse
  bcryptCompared : Bool
  users : List AuthUser
deriving DecidableEq, Repr

/-- Render an `account_status` as the source interpolates it into the
non-active error message. -/
def AccountStatus.asString : AccountStatus → String
  | .active => "active"
  | .suspended => "suspended"
  | .banned => "banned"
  | .blocked => "blocked"

/-- server.js `POST /api/auth/login` (lines 398-521): validate inputs,
look the user up by sanitized email, refuse blocked and non-active
accounts before any hash comparison, compare the password, record a
failure (blocking at the third) or clear the counter on success. -/
def login (users : List AuthUser) (email password : String) : LoginResult :=
  if email == "" || password == "" then
    ⟨{ httpStatus := 400, error := some "Email and password required" }, false, users⟩
  else
    let trimmedEmail := jsTrim email
    let trimmedPassword := jsTrim password
    if !validateEmail trimmedEmail then
      ⟨{ httpStatus := 400, error := some "Invalid email format" }, false, users⟩
    else if !validatePassword trimmedPassword then
      ⟨{ httpStatus := 400, error := some "Password must be 8-12 characters long" }, false, users⟩
    else
      let safeEmail := sanitizeInput trimmedEmail
      match users.find? (fun u => u.email == safeEmail) with
      | none =>
        ⟨{ httpStatus := 401, error := some "Invalid credentials",
           attemptsRemaining := some MAX_LOGIN_ATTEMPTS }, false, users⟩
      | some user =>
        if user.account_status = .blocked then
          ⟨{ httpStatus := 403,
             error := some "Account is blocked due to too many failed login attempts. Please contact an administrator to unblock your account.",
             blocked := true }, false, users⟩
        else if user.account_status ≠ .active then
          ⟨{ httpStatus := 403,
             error := some ("Account is " ++ user.account_status.asString ++ ". Please contact support.") },
           false, users⟩
        else
          let isMatch := trimmedPassword == user.password
          if !isMatch then
            let res := recordFailedLoginAttempt users user.id
            if res.1.1 then
              ⟨{ httpStatus := 403,
                 error := some "Account has been blocked due to too many failed login attempts. Please contact an administrator.",
                 blocked := true }, true, res.2⟩
            else
              ⟨{ httpStatus := 401, error := some "Invalid credentials",
                 attemptsRemaining := some res.1.2 }, true, res.2⟩
          else
            ⟨{ httpStatus := 200, success := true }, true,
             clearFailedLoginAttempts users user.id⟩

/-- server.js `PUT /api/admin/users/:id/unblock` (lines 3077-3103), the
state change only: set `account_status` to active and reset the
failure counter. -/
def adminUnblockUser (users : List AuthUser) (targetId : Nat) : List AuthUser :=
  updateWhere (fun u => u.id == targetId)
    (fun u => { u with account_status := .active, failed_login_attempts := 0 }) users

-- ==========================================
-- Core business state: applications, published services, service
-- requests, completions, chats, transactions, wallets.
-- ==========================================

/-- The `status` column of `service_requests`. -/
inductive ReqStatus
  | pending
  | employee_accepted
  | in_progress
  | pending_completion
  | closed
  | cancelled
deriving DecidableEq, Repr

/-- The `status` column of `service_completions`. -/
inductive ComplStatus
  | pending_review
  | closed
  | needs_revision
deriving DecidableEq, Repr

/-- The `status` column of `service_applications`. -/
inductive AppStatus
  | pending
  | approved
  | rejected
deriving DecidableEq, Repr

/-- A row of `users` as the business endpoints touch it: role flag and
wallet.  The wallet is credited only by completion approval. -/
structure UserRow where
  id : Nat
  is_employee : Bool
  wallet_balance : Rat
deriving DecidableEq, Repr

/-- A row of `service_applications`. -/
structure ServiceApplication where
  id : Nat
  user_id : Nat
  game_id : Nat
  title : String
  description : String
  price : Rat
  status : AppStatus
  admin_notes : Option String
deriving DecidableEq, Repr

/-- A row of `published_services`. -/
structure PublishedService where
  id : Nat
  employee_id : Nat
  application_id : Nat
  game_id : Nat
  title : String
  description : String
  price : Rat
  is_active : Bool
deriving DecidableEq, Repr

/-- A row of `employee_profiles` (columns used by the handlers). -/
structure EmployeeProfile where
  user_id : Nat
  profile_status : String
  is_verified : Bool
  total_services_completed : Nat
deriving DecidableEq, Repr

/-- A row of `service_requests`. -/
structure ServiceRequest where
  id : Nat
  published_service_id : Nat
  requester_user_id : Nat
  employee_user_id : Nat
  service_details : String
  amount : Rat
  status : ReqStatus
  employee_response : Option String
  initial_acceptance : Bool
  final_acceptance : Bool
deriving DecidableEq, Repr

/-- A row of `service_completions`. -/
structure ServiceCompletion where
  id : Nat
  service_request_id : Nat
  employee_completion_notes : String
  admin_review_notes : Option String
  status : ComplStatus
deriving DecidableEq, Repr

/-- A row of `chats`. -/
structure ChatRow where
  id : Nat
  service_request_id : Nat
  is_archived : Bool
deriving DecidableEq, Repr

/-- A row of `chat_messages`. -/
structure ChatMessage where
  id : Nat
  chat_id : Nat
  sender_user_id : Nat
  message : String
deriving DecidableEq, Repr

/-- A row of `transactions` (completion payouts). -/
structure TransactionRow where
  service_request_id : Nat
  from_user_id : Nat
  to_user_id : Nat
  amount : Rat
  commission_amount : Rat
deriving DecidableEq, Repr

/-- A row of `notifications` (recipient and type; the free-text title
and message are presentation detail). -/
structure NotificationRow where
  user_id : Nat
  notification_type : String
deriving DecidableEq, Repr

/-- A row of `admin_logs` (the free-text `details` string is omitted). -/
structure AdminLogRow where
  admin_id : Nat
  action : String
  target_type : Option String
  target_id : Option Nat
  ip_address : Option String
deriving DecidableEq, Repr

/-- The persisted store, one list per table, plus an auto-increment
supply shared by all inserts (`result.insertId`). -/
structure DB where
  users : List UserRow
  applications : List ServiceApplication
  services : List PublishedService
  profiles : List EmployeeProfile
  requests : List ServiceRequest
  completions : List ServiceCompletion
  chats : List ChatRow
  messages : List ChatMessage
  transactions : List TransactionRow
  notifications : List NotificationRow
  adminLogs : List AdminLogRow
  nextId : Nat
deriving DecidableEq, Repr

/-- The observable part of a JSON response: HTTP status, `error` string
and `success` flag (identifier payloads such as `insertId` are
dropped). -/
structure Resp where
  httpStatus : Nat
  error : Option String := none
  success : Bool := false
deriving DecidableEq, Repr

/-- server.js `logAdminAction` (lines 241-262): append one audit row;
a write failure is swallowed and never aborts the caller, so the model
is the plain append. -/
def logAdminAction (db : DB) (adminId : Nat) (action : String)
    (targetType : Option String) (targetId : Option Nat) (ip : Option String) : DB :=
  { db with adminLogs :=
      db.adminLogs ++ [⟨adminId, sanitizeInput action, targetType.map sanitizeInput, targetId, ip⟩] }

-- ==========================================
-- Service application endpoints.
-- ==========================================

/-- server.js `POST /api/applications` (lines 1151-1183): require all
fields (JavaScript falsiness: empty strings and 0 fail the check),
sanitize title and description, length-check only the title, insert a
pending application.  The description length is never checked. -/
def createApplication (db : DB) (callerId gameId : Nat)
    (title description : String) (price : Rat) : Resp × DB :=
  if gameId == 0 || title == "" || description == "" || price == 0 then
    ({ httpStatus := 400, error := some "Missing required fields" }, db)
  else
    let safeTitle := sanitizeInput title
    let safeDesc := sanitizeInput description
    if !validateFieldLength safeTitle 100 then
      ({ httpStatus := 400, error := some "Title must not exceed 100 characters" }, db)
    else
      ({ httpStatus := 200, success := true },
       { db with
          applications := db.applications ++
            [⟨db.nextId, callerId, gameId, safeTitle, safeDesc, price, .pending, none⟩],
          nextId := db.nextId + 1 })

/-- server.js `PUT /api/applications/:id` (lines 1214-1255): require all
fields, answer 403 unless the caller owns the application, then write
the raw request-body values and reset the status to pending.  Note the
handler applies neither `sanitizeInput` nor `validateFieldLength` to
the new title and description. -/
def updateApplication (db : DB) (callerId appId : Nat)
    (title description : String) (price : Rat) : Resp × DB :=
  if title == "" || description == "" || price == 0 then
    ({ httpStatus := 400, error := some "Missing required fields" }, db)
  else
    match db.applications.find? (fun a => a.id == appId) with
    | none => ({ httpStatus := 403, error := some "Unauthorized" }, db)
    | some a =>
      if a.user_id != callerId then
        ({ httpStatus := 403, error := some "Unauthorized" }, db)
      else
        ({ httpStatus := 200, success := true },
         { db with
            applications :=
              updateWhere (fun x => x.id == appId)
                (fun x => { x with title := title, description := description,
                                   price := price, status := .pending })
                db.applications })

/-- server.js `POST /api/applications/:id/approve` (lines 1319-1390),
one transaction: mark the application approved, insert exactly one
active published service copying its fields, set the owner to
employee, upsert the employee profile (`ON DUPLICATE KEY UPDATE
status = active`), and write an audit row.  A missing application rolls
back with 404 and no effect. -/
def approveApplication (db : DB) (adminId : Nat) (ip : Option String)
    (appId : Nat) (adminNotes : Option String) : Resp × DB :=
  match db.applications.find? (fun a => a.id == appId) with
  | none => ({ httpStatus := 404, error := some "Application not found" }, db)
  | some a =>
    let db1 :=
      { db with
          applications :=
            updateWhere (fun x => x.id == appId)
              (fun x => { x with status := .approved, admin_notes := adminNotes })
              db.applications,
          services := db.services ++
            [⟨db.nextId, a.user_id, appId, a.game_id, a.title, a.description, a.price, true⟩],
          users :=
            updateWhere (fun u => u.id == a.user_id)
              (fun u => { u with is_employee := true }) db.users,
          profiles :=
            if (db.profiles.find? (fun q => q.user_id == a.user_id)).isSome then
              updateWhere (fun q => q.user_id == a.user_id)
                (fun q => { q with profile_status := "active" }) db.profiles
            else
              db.profiles ++ [⟨a.user_id, "active", false, 0⟩],
          nextId := db.nextId + 1 }
    ({ httpStatus := 200, success := true },
     logAdminAction db1 adminId "APPROVE_APPLICATION"
       (some "service_application") (some appId) ip)

-- ==========================================
-- Service request lifecycle endpoints.
-- ==========================================

/-- server.js `POST /api/requests` (lines 1507-1550): copy the price of
the published service into the new pending request. -/
def createRequest (db : DB) (callerId psId : Nat) (serviceDetails : String) : Resp × DB :=
  if psId == 0 || serviceDetails == "" then
    ({ httpStatus := 400, error := some "Missing required fields" }, db)
  else
    match db.services.find? (fun s => s.id == psId) with
    | none => ({ httpStatus := 404, error := some "Service not found" }, db)
    | some s =>
      ({ httpStatus := 200, success := true },
       { db with
          requests := db.requests ++
            [⟨db.nextId, psId, callerId, s.employee_id, serviceDetails, s.price,
              .pending, none, false, false⟩],
          nextId := db.nextId + 1 })

/-- server.js `POST /api/requests/:id/accept` (lines 1641-1702): only
the assigned employee may accept; the request status becomes
`employee_accepted` with no check of the previous status, and the
requester is notified. -/
def acceptRequest (db : DB) (callerId reqId : Nat)
    (employeeResponse : Option String) : Resp × DB :=
  match db.requests.find? (fun r => r.id == reqId) with
  | none => ({ httpStatus := 404, error := some "Request not found" }, db)
  | some r =>
    if r.employee_user_id != callerId then
      ({ httpStatus := 403, error := some "Unauthorized" }, db)
    else
      ({ httpStatus := 200, success := true },
       { db with
          requests :=
            updateWhere (fun x => x.id == reqId)
              (fun x => { x with status := .employee_accepted,
                                 employee_response := employeeResponse,
                                 initial_acceptance := true })
              db.requests,
          notifications := db.notifications ++
            [⟨r.requester_user_id, "request_accepted"⟩] })

/-- server.js `POST /api/requests/:id/confirm` (lines 1705-1779): only
the requester may confirm, only from `employee_accepted`; the request
moves to `in_progress` and the chat is created. -/
def confirmRequest (db : DB) (callerId reqId : Nat) : Resp × DB :=
  match db.requests.find? (fun r => r.id == reqId) with
  | none => ({ httpStatus := 404, error := some "Request not found" }, db)
  | some r =>
    if r.requester_user_id != callerId then
      ({ httpStatus := 403, error := some "Unauthorized" }, db)
    else if r.status ≠ .employee_accepted then
      ({ httpStatus := 400, error := some "Request must be accepted by employee first" }, db)
    else
      ({ httpStatus := 200, success := true },
       { db with
          requests :=
            updateWhere (fun x => x.id == reqId)
              (fun x => { x with status := .in_progress, final_acceptance := true })
              db.requests,
          chats := db.chats ++ [⟨db.nextId, reqId, false⟩],
          notifications := db.notifications ++
            [⟨r.employee_user_id, "service_started"⟩],
          nextId := db.nextId + 1 })

/-- server.js `POST /api/requests/:id/reject` (lines 1781-1800): the
handler runs `UPDATE service_requests SET status = cancelled WHERE
id = ?` for any authenticated caller.  It performs no lookup, no
ownership check and no status check, and always answers success. -/
def rejectRequest (db : DB) (callerId reqId : Nat) : Resp × DB :=
  let _ := callerId
  ({ httpStatus := 200, success := true },
   { db with
      requests :=
        updateWhere (fun x => x.id == reqId)
          (fun x => { x with status := .cancelled }) db.requests })

/-- server.js `POST /api/requests/:id/complete` (lines 1802-1876): only
the assigned employee, only from `in_progress`; the request moves to
`pending_completion` and a `pending_review` completion row is
inserted. -/
def completeRequest (db : DB) (callerId reqId : Nat)
    (completionNotes : String) : Resp × DB :=
  match db.requests.find? (fun r => r.id == reqId) with
  | none => ({ httpStatus := 404, error := some "Request not found" }, db)
  | some r =>
    if r.employee_user_id != callerId then
      ({ httpStatus := 403, error := some "Only the employee can mark completion" }, db)
    else if r.status ≠ .in_progress then
      ({ httpStatus := 400, error := some "Service must be in progress to complete" }, db)
    else
      ({ httpStatus := 200, success := true },
       { db with
          requests :=
            updateWhere (fun x => x.id == reqId)
              (fun x => { x with status := .pending_completion })
              db.requests,
          completions := db.completions ++
            [⟨db.nextId, reqId, completionNotes, none, .pending_review⟩],
          notifications := db.notifications ++
            [⟨r.requester_user_id, "completion_requested"⟩],
          nextId := db.nextId + 1 })

/-- server.js `POST /api/requests/:id/cancel` (lines 1878-1915): either
party may cancel; the status becomes `cancelled` with no check of the
previous status. -/
def cancelRequest (db : DB) (callerId reqId : Nat) : Resp × DB :=
  match db.requests.find? (fun r => r.id == reqId) with
  | none => ({ httpStatus := 404, error := some "Request not found" }, db)
  | some r =>
    if callerId != r.requester_user_id && callerId != r.employee_user_id then
      ({ httpStatus := 403, error := some "Unauthorized" }, db)
    else
      ({ httpStatus := 200, success := true },
       { db with
          requests :=
            updateWhere (fun x => x.id == reqId)
              (fun x => { x with status := .cancelled }) db.requests })

-- ==========================================
-- Chat endpoints.
-- ==========================================

/-- server.js `GET /api/chats/:id/messages` (lines 1952-1977): return
the messages of the chat in ascending creation order with LIMIT and
OFFSET.  The handler never consults the caller identity, the chat row
or the request. -/
def getChatMessages (db : DB) (callerId chatId : Nat)
    (limit : Nat := 50) (offset : Nat := 0) : List ChatMessage :=
  let _ := callerId
  ((db.messages.filter (fun m => m.chat_id == chatId)).drop offset).take limit

/-- server.js `POST /api/chats/:id/messages` (lines 1979-2007): require
a message, sanitize it, insert it attributed to the caller.  There is
no check that the caller participates in the chat, that the chat
exists or is unarchived, or that the request is open. -/
def postChatMessage (db : DB) (callerId chatId : Nat) (message : String) : Resp × DB :=
  if message == "" then
    ({ httpStatus := 400, error := some "Message required" }, db)
  else
    ({ httpStatus := 200, success := true },
     { db with
        messages := db.messages ++
          [⟨db.nextId, chatId, callerId, sanitizeInput message⟩],
        nextId := db.nextId + 1 })

-- ==========================================
-- Admin completion review endpoints.
-- ==========================================

/-- server.js `POST /api/admin/completions/:id/approve` (lines
2252-2380), one transaction: look the completion up by id joined with
its request (with no condition on the current completion status),
compute the 10 percent commission, close the completion and the
request, archive the chat, insert a transaction row, credit the
employee wallet with the earnings, bump the profile counter, notify
both parties, and write an audit row. -/
def adminApproveCompletion (db : DB) (adminId : Nat) (ip : Option String)
    (complId : Nat) (adminNotes : Option String) : Resp × DB :=
  match db.completions.find? (fun c => c.id == complId) with
  | none => ({ httpStatus := 404, error := some "Completion record not found" }, db)
  | some c =>
    match db.requests.find? (fun r => r.id == c.service_request_id) with
    | none => ({ httpStatus := 404, error := some "Completion record not found" }, db)
    | some r =>
      let commissionRate : Rat := 1 / 10
      let commissionAmount := r.amount * commissionRate
      let employeeEarnings := r.amount - commissionAmount
      let db1 :=
        { db with
            completions :=
              updateWhere (fun x => x.id == complId)
                (fun x => { x with status := .closed, admin_review_notes := adminNotes })
                db.completions,
            requests :=
              updateWhere (fun x => x.id == c.service_request_id)
                (fun x => { x with status := .closed }) db.requests,
            chats :=
              updateWhere (fun x => x.service_request_id == c.service_request_id)
                (fun x => { x with is_archived := true }) db.chats,
            transactions := db.transactions ++
              [⟨c.service_request_id, r.requester_user_id, r.employee_user_id,
                r.amount, commissionAmount⟩],
            users :=
              updateWhere (fun u => u.id == r.employee_user_id)
                (fun u => { u with wallet_balance := u.wallet_balance + employeeEarnings })
                db.users,
            profiles :=
              updateWhere (fun q => q.user_id == r.employee_user_id)
                (fun q => { q with total_services_completed := q.total_services_completed + 1 })
                db.profiles,
            notifications := db.notifications ++
              [⟨r.employee_user_id, "payment_received"⟩,
               ⟨r.requester_user_id, "service_completed"⟩] }
      ({ httpStatus := 200, success := true },
       logAdminAction db1 adminId "APPROVE_COMPLETION"
         (some "service_completion") (some complId) ip)

/-- server.js `POST /api/admin/completions/:id/reopen` (lines
2383-2476), one transaction: mark the completion `needs_revision` and
move its request back to `in_progress` (with no condition on the
current statuses), notify both parties, and write an audit row. -/
def adminReopenCompletion (db : DB) (adminId : Nat) (ip : Option String)
    (complId : Nat) (adminNotes : Option String) : Resp × DB :=
  match db.completions.find? (fun c => c.id == complId) with
  | none => ({ httpStatus := 404, error := some "Completion record not found" }, db)
  | some c =>
    match db.requests.find? (fun r => r.id == c.service_request_id) with
    | none => ({ httpStatus := 404, error := some "Completion record not found" }, db)
    | some r =>
      let db1 :=
        { db with
            completions :=
              updateWhere (fun x => x.id == complId)
                (fun x => { x with status := .needs_revision, admin_review_notes := adminNotes })
                db.completions,
            requests :=
              updateWhere (fun x => x.id == c.service_request_id)
                (fun x => { x with status := .in_progress }) db.requests,
            notifications := db.notifications ++
              [⟨r.employee_user_id, "service_reopened"⟩,
               ⟨r.requester_user_id, "service_reopened"⟩] }
      ({ httpStatus := 200, success := true },
       logAdminAction db1 adminId "REOPEN_COMPLETION"
         (some "service_completion") (some complId) ip)

-- ==========================================
-- Projections used by the theorems.
-- ==========================================

/-- Status of the request with the given id, if any. -/
def requestStatusOf (db : DB) (reqId : Nat) : Option ReqStatus :=
  (db.requests.find? (fun r => r.id == reqId)).map (·.status)

/-- Status of the completion with the given id, if any. -/
def completionStatusOf (db : DB) (complId : Nat) : Option ComplStatus :=
  (db.completions.find? (fun c => c.id == complId)).map (·.status)

/-- Title of the application with the given id, if any. -/
def appTitleOf (db : DB) (appId : Nat) : Option String :=
  (db.applications.find? (fun a => a.id == appId)).map (·.title)

-- ==========================================
-- A concrete run of the service lifecycle, used to evaluate the
-- endpoints on explicit inputs: user 1 requests the service of user 2,
-- admin 9 approves the application and later the completion.
-- ==========================================

/-- Initial store: two users, one pending application (id 5) by user 2
priced 25, auto-increment at 10. -/
def demoDB : DB :=
  { users := [⟨1, false, 0⟩, ⟨2, false, 0⟩],
    applications := [⟨5, 2, 3, "Valorant Coaching", "climb ranks", 25, .pending, none⟩],
    services := [], profiles := [], requests := [], completions := [], chats := [],
    messages := [], transactions := [], notifications := [], adminLogs := [], nextId := 10 }

/-- Admin 9 approves application 5: published service 10 appears. -/
def demoApproved : DB := (approveApplication demoDB 9 (some "127.0.0.1") 5 (some "ok")).2

/-- User 1 requests service 10: request 11, status pending, amount 25. -/
def demoRequested : DB := (createRequest demoApproved 1 10 "please boost").2

/-- Employee 2 accepts request 11. -/
def demoAccepted : DB := (acceptRequest demoRequested 2 11 (some "will do")).2

/-- User 1 confirms request 11: chat 12 opens. -/
def demoConfirmed : DB := (confirmRequest demoAccepted 1 11).2

/-- Employee 2 marks request 11 done: completion 13, pending review. -/
def demoCompleted : DB := (completeRequest demoConfirmed 2 11 "done").2

/-- Admin 9 approves completion 13: request 11 closed, transaction
recorded, wallet credited, chat 12 archived. -/
def demoClosed : DB :=
  (adminApproveCompletion demoCompleted 9 (some "127.0.0.1") 13 (some "good")).2

/-- A one-row users table for the authentication endpoints. -/
def demoAuthUsers : List AuthUser :=
  [⟨1, "a@b.co", "hunter123", "Alice", false, .active, 0⟩]

/-- A title as a client may submit it: padded with whitespace and
carrying HTML metacharacters. -/
def rawTitle : String := "  <script>alert(1)</script>  "

/-- A 120-character title, beyond the documented 100-character cap. -/
def longTitle : String := ⟨List.replicate 120 'a'⟩

/-- Every request that is `closed` in the list was already `closed` in
the store `db`. -/
def closedOnlyFrom (db : DB) (l : List ServiceRequest) : Prop :=
  ∀ r ∈ l, r.status = .closed → ∃ r0 ∈ db.requests, r0.id = r.id ∧ r0.status = .closed

-- ==========================================
-- List lemmas about the SQL embedding.
-- ==========================================

theorem updateWhere_nil {α : Type} (p : α → Bool) (f : α → α) :
    updateWhere p f [] = [] := rfl

theorem updateWhere_cons {α : Type} (p : α → Bool) (f : α → α) (a : α) (t : List α) :
    updateWhere p f (a :: t) = (if p a then f a else a) :: updateWhere p f t := rfl

/-- Reading back with the same predicate after `UPDATE ... WHERE p`
returns the updated first match, provided the update preserves the
predicate. -/
theorem find?_updateWhere {α : Type} (p : α → Bool) (f : α → α)
    (hf : ∀ a, p (f a) = p a) :
    ∀ l : List α, (updateWhere p f l).find? p = (l.find? p).map f := by
  intro l
  induction l with
  | nil => rfl
  | cons a t ih =>
    rw [updateWhere_cons]
    by_cases h : p a
    · rw [if_pos h, List.find?_cons_of_pos _ (by rw [hf]; exact h),
        List.find?_cons_of_pos _ h]
      rfl
    · rw [if_neg h, List.find?_cons_of_neg _ h, List.find?_cons_of_neg _ h, ih]

/-- If the rows have pairwise distinct keys, a row found by any
predicate is also the row found by its key. -/
theorem find?_of_pairwise_key {α : Type} (key : α → Nat) :
    ∀ (l : List α), l.Pairwise (fun a b => key a ≠ key b) →
      ∀ (q : α → Bool) (u : α), l.find? q = some u →
        l.find? (fun v => key v == key u) = some u := by
  intro l
  induction l with
  | nil => intro _ q u h; simp [List.find?] at h
  | cons a t ih =>
    intro hpw q u hfind
    rcases List.pairwise_cons.mp hpw with ⟨ha, ht⟩
    by_cases h : q a
    · rw [List.find?_cons_of_pos _ h] at hfind
      cases hfind
      exact List.find?_cons_of_pos _ (by simp)
    · rw [List.find?_cons_of_neg _ h] at hfind
      have hu : u ∈ t := List.mem_of_find?_eq_some hfind
      rw [List.find?_cons_of_neg _ (by simp [ha u hu])]
      exact ih ht q u hfind

/-- A row of the updated table whose status is `closed` comes from a
row that was already `closed`, whenever the update writes a status
other than `closed` and preserves ids. -/
theorem closed_of_mem_updateWhere {p : ServiceRequest → Bool}
    {f : ServiceRequest → ServiceRequest} {l : List ServiceRequest}
    {r : ServiceRequest} (hr : r ∈ updateWhere p f l)
    (hf : ∀ x, (f x).status ≠ .closed ∧ (f x).id = x.id)
    (hcl : r.status = .closed) :
    ∃ r0 ∈ l, r0.id = r.id ∧ r0.status = .closed := by
  rcases List.mem_map.mp hr with ⟨r0, hr0, heq⟩
  by_cases h : p r0
  · rw [if_pos h] at heq
    exact absurd (heq ▸ hcl) (hf r0).1
  · rw [if_neg h] at heq
    exact ⟨r0, hr0, by rw [heq], heq ▸ hcl⟩

-- ==========================================
-- Claim theorems.
-- ==========================================

/-- C1.  The claim states that approving a completion is guarded by the
completion currently being in status `pending_review`, so that a second
approval of an already closed completion does not credit the wallet or
insert a second transaction row.  The code has no such guard: starting
from the demo state in which completion 13 is already `closed` and one
transaction exists, calling the approval endpoint again succeeds,
inserts a second transaction row, applies the wallet credit a second
time, and emits a second payment notification. -/
theorem approve_completion_lacks_pending_review_guard :
    completionStatusOf demoClosed 13 = some .closed ∧
    requestStatusOf demoClosed 11 = some .closed ∧
    demoClosed.transactions.length = 1 ∧
    (adminApproveCompletion demoClosed 9 (some "ip") 13 (some "again")).1.success = true ∧
    (adminApproveCompletion demoClosed 9 (some "ip") 13 (some "again")).2.transactions.length = 2 ∧
    ((adminApproveCompletion demoClosed 9 (some "ip") 13 (some "again")).2.notifications.filter
      (fun n => n.notification_type == "payment_received")).length = 2 ∧
    (adminApproveCompletion demoClosed 9 (some "ip") 13 (some "again")).2.users =
      updateWhere (fun u => u.id == 2)
        (fun u => { u with wallet_balance := u.wallet_balance + ((25 : Rat) - 25 * (1 / 10)) })
        demoClosed.users :=
  ⟨by decide, by decide, by decide, by decide, by decide, by decide, rfl⟩

/-- C2, counterexample.  The claim states that `closed` is absorbing.
In the demo state request 11 is `closed`, yet its employee can call the
accept endpoint again: the call succeeds and moves the request back to
`employee_accepted`. -/
theorem closed_request_reaccepted :
    requestStatusOf demoClosed 11 = some .closed ∧
    (acceptRequest demoClosed 2 11 none).1.success = true ∧
    requestStatusOf (acceptRequest demoClosed 2 11 none).2 11 = some .employee_accepted := by
  decide

/-- C5, counterexample.  The claim states that every mutating
service-request endpoint answers `unauthorized` to a caller who is
neither party, leaving the request unchanged.  The reject endpoint
performs no caller check at all: caller 99, a stranger to request 11
(requester 1, employee 2), cancels the pending request and receives a
success response. -/
theorem reject_mutates_for_stranger :
    requestStatusOf demoRequested 11 = some .pending ∧
    ((demoRequested.requests.find? (fun r => r.id == 11)).map (·.requester_user_id)) = some 1 ∧
    ((demoRequested.requests.find? (fun r => r.id == 11)).map (·.employee_user_id)) = some 2 ∧
    (rejectRequest demoRequested 99 11).1.success = true ∧
    requestStatusOf (rejectRequest demoRequested 99 11).2 11 = some .cancelled := by
  decide

/-- C7, counterexample.  The claim states that the unknown-email
response and the wrong-password response are identical including the
`attemptsRemaining` value.  Against a store holding only
`a@b.co` with zero failed attempts, the unknown email answers
`attemptsRemaining = 3` while the wrong password answers
`attemptsRemaining = 2`, so the bodies differ. -/
theorem login_attempts_remaining_distinguishes :
    (login demoAuthUsers "x@y.co" "password1").resp.httpStatus = 401 ∧
    (login demoAuthUsers "a@b.co" "password1").resp.httpStatus = 401 ∧
    (login demoAuthUsers "x@y.co" "password1").resp.error =
      (login demoAuthUsers "a@b.co" "password1").resp.error ∧
    (login demoAuthUsers "x@y.co" "password1").resp.attemptsRemaining = some 3 ∧
    (login demoAuthUsers "a@b.co" "password1").resp.attemptsRemaining = some 2 ∧
    (login demoAuthUsers "x@y.co" "password1").resp ≠
      (login demoAuthUsers "a@b.co" "password1").resp := by
  decide

set_option maxRecDepth 8000 in
/-- C8.  The claim states that every stored free-text value is trimmed,
capped at 100 characters and HTML-escaped, in particular through
`PUT /api/applications/:id`.  The PUT handler stores the raw request
body: the owner of application 5 stores `rawTitle` verbatim (neither
trimmed nor escaped, differing from its sanitized form) and stores a
120-character title with no length check. -/
theorem put_application_stores_raw_text :
    (updateApplication demoDB 2 5 rawTitle "new description" 25).1.success = true ∧
    appTitleOf (updateApplication demoDB 2 5 rawTitle "new description" 25).2 5 =
      some rawTitle ∧
    sanitizeInput rawTitle ≠ rawTitle ∧
    (jsTrim rawTitle).length < rawTitle.length ∧
    (updateApplication demoDB 2 5 longTitle "new description" 25).1.success = true ∧
    appTitleOf (updateApplication demoDB 2 5 longTitle "new description" 25).2 5 =
      some longTitle ∧
    100 < longTitle.length ∧
    validateFieldLength longTitle 100 = false := by
  decide

/-- C10.  Posting to a chat requires only a nonempty message: the
handler inserts the message attributed to the caller without consulting
the chat row, the request parties or the archive flag, and reading a
chat returns its messages for any authenticated caller (the result does
not depend on the caller at all). -/
theorem chat_endpoints_skip_authorization (db : DB)
    (caller caller2 chatId limit offset : Nat) (msg : String)
    (hmsg : (msg == "") = false) :
    (postChatMessage db caller chatId msg).1 = { httpStatus := 200, success := true } ∧
    (postChatMessage db caller chatId msg).2.messages =
      db.messages ++ [⟨db.nextId, chatId, caller, sanitizeInput msg⟩] ∧
    getChatMessages db caller chatId limit offset =
      getChatMessages db caller2 chatId limit offset ∧
    getChatMessages db caller chatId limit offset =
      ((db.messages.filter (fun m => m.chat_id == chatId)).drop offset).take limit := by
  refine ⟨?_, ?_, rfl, rfl⟩ <;> simp [postChatMessage, hmsg]

/-- C10, witness: stranger 99 posts into chat 12 of the demo state even
though the chat is archived and 99 participates in no request. -/
theorem chat_endpoints_skip_authorization_witness :
    ((demoClosed.chats.find? (fun c => c.id == 12)).map (·.is_archived)) = some true ∧
    (postChatMessage demoClosed 99 12 "hello").1 = { httpStatus := 200, success := true } :=
  ⟨by decide,
   (chat_endpoints_skip_authorization demoClosed 99 1 12 50 0 "hello" (by decide)).1⟩

/-- C9.  An owner edit of an application with all fields present
rewrites title, description and price and resets the status to
`pending` regardless of the prior status; a non-owner caller receives
403 and the store is unchanged. -/
theorem owner_edit_resets_status_to_pending (db : DB) (caller appId : Nat)
    (t d : String) (price : Rat) (a : ServiceApplication)
    (ht : (t == "") = false) (hd : (d == "") = false) (hp : (price == 0) = false)
    (hfind : db.applications.find? (fun x => x.id == appId) = some a) :
    (a.user_id = caller →
      (updateApplication db caller appId t d price).1 =
        { httpStatus := 200, success := true } ∧
      (updateApplication db caller appId t d price).2.applications.find?
          (fun x => x.id == appId) =
        some { a with title := t, description := d, price := price, status := .pending }) ∧
    (a.user_id ≠ caller →
      updateApplication db caller appId t d price =
        ({ httpStatus := 403, error := some "Unauthorized" }, db)) := by
  constructor
  · intro hown
    have hbe : (a.user_id != caller) = false := by simp [hown]
    constructor
    · simp [updateApplication, ht, hd, hp, hfind, hbe]
    · have : (updateApplication db caller appId t d price).2.applications =
          updateWhere (fun x => x.id == appId)
            (fun x => { x with title := t, description := d,
                               price := price, status := .pending })
            db.applications := by
        simp [updateApplication, ht, hd, hp, hfind, hbe]
      rw [this,
        find?_updateWhere (fun x => x.id == appId)
          (fun x => { x with title := t, description := d,
                             price := price, status := .pending })
          (fun x => rfl) db.applications,
        hfind]
      rfl
  · intro hnot
    have hbe : (a.user_id != caller) = true := by simp [hnot]
    simp [updateApplication, ht, hd, hp, hfind, hbe]

/-- C9, witness: user 2 edits the (pending) application 5 of the demo
store and it is stored with the new fields and pending again, while
user 1 is refused. -/
theorem owner_edit_resets_status_to_pending_witness :
    (updateApplication demoDB 2 5 "New title" "new desc" 30).2.applications.find?
        (fun x => x.id == 5) =
      some ⟨5, 2, 3, "New title", "new desc", 30, .pending, none⟩ ∧
    updateApplication demoDB 1 5 "New title" "new desc" 30 =
      ({ httpStatus := 403, error := some "Unauthorized" }, demoDB) :=
  ⟨((owner_edit_resets_status_to_pending demoDB 2 5 "New title" "new desc" 30 _
      (by decide) (by decide) (by decide) rfl).1 rfl).2,
   (owner_edit_resets_status_to_pending demoDB 1 5 "New title" "new desc" 30 _
      (by decide) (by decide) (by decide) rfl).2 (by decide)⟩

/-- Searching an appended table continues in the second part when the
first holds no match. -/
theorem find?_append_of_none {α : Type} (p : α → Bool) :
    ∀ (l1 l2 : List α), l1.find? p = none → (l1 ++ l2).find? p = l2.find? p := by
  intro l1 l2 h
  induction l1 with
  | nil => rfl
  | cons a t ih =>
    by_cases hp : p a
    · rw [List.find?_cons_of_pos _ hp] at h
      exact absurd h (by simp)
    · rw [List.find?_cons_of_neg _ hp] at h
      rw [List.cons_append, List.find?_cons_of_neg _ hp]
      exact ih h

/-- C6.  Approving an application either fails with 404 on a missing
record leaving the store untouched, or performs, atomically, the four
documented effects: the application becomes `approved`, exactly one new
active published service copying its fields is appended, the owner
gains the employee flag, and an employee profile row with status
`active` exists afterwards. -/
theorem approve_application_effects (db : DB) (adminId appId : Nat)
    (ip notes : Option String) :
    (db.applications.find? (fun x => x.id == appId) = none →
      approveApplication db adminId ip appId notes =
        ({ httpStatus := 404, error := some "Application not found" }, db)) ∧
    (∀ a, db.applications.find? (fun x => x.id == appId) = some a →
      (approveApplication db adminId ip appId notes).1 =
        { httpStatus := 200, success := true } ∧
      (approveApplication db adminId ip appId notes).2.applications.find?
          (fun x => x.id == appId) =
        some { a with status := .approved, admin_notes := notes } ∧
      (approveApplication db adminId ip appId notes).2.services =
        db.services ++
          [⟨db.nextId, a.user_id, appId, a.game_id, a.title, a.description, a.price, true⟩] ∧
      (approveApplication db adminId ip appId notes).2.users.find?
          (fun v => v.id == a.user_id) =
        (db.users.find? (fun v => v.id == a.user_id)).map
          (fun v => { v with is_employee := true }) ∧
      (∃ ep, (approveApplication db adminId ip appId notes).2.profiles.find?
          (fun q => q.user_id == a.user_id) = some ep ∧ ep.profile_status = "active")) := by
  constructor
  · intro hnone
    simp [approveApplication, hnone]
  · intro a hfind
    refine ⟨by simp [approveApplication, hfind, logAdminAction], ?_, ?_, ?_, ?_⟩
    · have : (approveApplication db adminId ip appId notes).2.applications =
          updateWhere (fun x => x.id == appId)
            (fun x => { x with status := .approved, admin_notes := notes })
            db.applications := by
        simp [approveApplication, hfind, logAdminAction]
      rw [this,
        find?_updateWhere (fun x => x.id == appId)
          (fun x => { x with status := .approved, admin_notes := notes })
          (fun x => rfl) db.applications,
        hfind]
      rfl
    · simp [approveApplication, hfind, logAdminAction]
    · have : (approveApplication db adminId ip appId notes).2.users =
          updateWhere (fun v => v.id == a.user_id)
            (fun v => { v with is_employee := true }) db.users := by
        simp [approveApplication, hfind, logAdminAction]
      rw [this,
        find?_updateWhere (fun v => v.id == a.user_id)
          (fun v => { v with is_employee := true })
          (fun v => rfl) db.users]
    · have hpr : (approveApplication db adminId ip appId notes).2.profiles =
          (if (db.profiles.find? (fun q => q.user_id == a.user_id)).isSome then
            updateWhere (fun q => q.user_id == a.user_id)
              (fun q => { q with profile_status := "active" }) db.profiles
          else
            db.profiles ++ [⟨a.user_id, "active", false, 0⟩]) := by
        simp [approveApplication, hfind, logAdminAction]
      cases hq : db.profiles.find? (fun q => q.user_id == a.user_id) with
      | none =>
        refine ⟨⟨a.user_id, "active", false, 0⟩, ?_, rfl⟩
        rw [hpr, hq]
        simp only [Option.isSome_none, Bool.false_eq_true, if_false]
        rw [find?_append_of_none _ _ _ hq]
        simp [List.find?]
      | some q0 =>
        refine ⟨{ q0 with profile_status := "active" }, ?_, rfl⟩
        rw [hpr, hq]
        simp only [Option.isSome_some, if_true]
        rw [find?_updateWhere (fun q => q.user_id == a.user_id)
            (fun q => { q with profile_status := "active" })
            (fun q => rfl) db.profiles,
          hq]
        rfl

/-- C6, witness: approving application 5 of the demo store publishes
service 10 with the same fields, approves the application, makes user 2
an employee and creates the active profile row. -/
theorem approve_application_effects_witness :
    (approveApplication demoDB 9 (some "127.0.0.1") 5 (some "ok")).2.services =
      [⟨10, 2, 5, 3, "Valorant Coaching", "climb ranks", 25, true⟩] ∧
    (approveApplication demoDB 9 (some "127.0.0.1") 5 (some "ok")).2.applications.find?
        (fun x => x.id == 5) =
      some ⟨5, 2, 3, "Valorant Coaching", "climb ranks", 25, .approved, some "ok"⟩ ∧
    (approveApplication demoDB 9 (some "127.0.0.1") 5 (some "ok")).2.users.find?
        (fun v => v.id == 2) = some ⟨2, true, 0⟩ :=
  have h := (approve_application_effects demoDB 9 5 (some "127.0.0.1") (some "ok")).2
    ⟨5, 2, 3, "Valorant Coaching", "climb ranks", 25, .pending, none⟩ rfl
  ⟨h.2.2.1, h.2.1, by rw [h.2.2.2.1]; rfl⟩

/-- C5, amended.  Accept, confirm, complete and cancel all refuse a
caller who is neither the assigned employee nor the requester with a
403 error and leave the store untouched; the reject endpoint is the
exception: it never inspects the caller and cancels the request for
anyone. -/
theorem party_checks_hold_except_reject (db : DB) (caller reqId : Nat)
    (er : Option String) (notes : String) (r : ServiceRequest)
    (hfind : db.requests.find? (fun x => x.id == reqId) = some r)
    (hemp : caller ≠ r.employee_user_id) (hreq : caller ≠ r.requester_user_id) :
    acceptRequest db caller reqId er =
      ({ httpStatus := 403, error := some "Unauthorized" }, db) ∧
    confirmRequest db caller reqId =
      ({ httpStatus := 403, error := some "Unauthorized" }, db) ∧
    completeRequest db caller reqId notes =
      ({ httpStatus := 403, error := some "Only the employee can mark completion" }, db) ∧
    cancelRequest db caller reqId =
      ({ httpStatus := 403, error := some "Unauthorized" }, db) ∧
    (rejectRequest db caller reqId).1 = { httpStatus := 200, success := true } ∧
    (rejectRequest db caller reqId).2.requests =
      updateWhere (fun x => x.id == reqId)
        (fun x => { x with status := .cancelled }) db.requests := by
  have h1 : (r.employee_user_id != caller) = true := by
    simpa using Ne.symm hemp
  have h2 : (r.requester_user_id != caller) = true := by
    simpa using Ne.symm hreq
  have h3 : (caller != r.requester_user_id) = true := by
    simpa using hreq
  have h4 : (caller != r.employee_user_id) = true := by
    simpa using hemp
  refine ⟨?_, ?_, ?_, ?_, rfl, rfl⟩
  · simp [acceptRequest, hfind, h1]
  · simp [confirmRequest, hfind, h2]
  · simp [completeRequest, hfind, h1]
  · simp [cancelRequest, hfind, h3, h4]

/-- C5, amended, witness: stranger 99 is refused by accept, confirm,
complete and cancel on request 11 of the demo state. -/
theorem party_checks_hold_except_reject_witness :
    acceptRequest demoRequested 99 11 none =
      ({ httpStatus := 403, error := some "Unauthorized" }, demoRequested) ∧
    cancelRequest demoRequested 99 11 =
      ({ httpStatus := 403, error := some "Unauthorized" }, demoRequested) :=
  have h := party_checks_hold_except_reject demoRequested 99 11 none "n"
    ⟨11, 10, 1, 2, "please boost", 25, .pending, none, false, false⟩
    (by decide) (by decide) (by decide)
  ⟨h.1, h.2.2.2.1⟩

theorem closedOnlyFrom_refl (db : DB) : closedOnlyFrom db db.requests :=
  fun r hr hcl => ⟨r, hr, rfl, hcl⟩

/-- C2, amended.  The status `closed` is assigned by the completion
approval endpoint alone: every other endpoint either leaves the
requests table unchanged or writes a status other than `closed`, so a
request that is `closed` after any of them was `closed` before.
(Absorption fails in the other direction, see the counterexample.) -/
theorem closed_only_from_completion_approval (db : DB)
    (caller psId reqId gameId appId complId adminId : Nat)
    (ip notes er : Option String) (details notes2 t d msg : String) (price : Rat) :
    closedOnlyFrom db (createRequest db caller psId details).2.requests ∧
    closedOnlyFrom db (acceptRequest db caller reqId er).2.requests ∧
    closedOnlyFrom db (confirmRequest db caller reqId).2.requests ∧
    closedOnlyFrom db (rejectRequest db caller reqId).2.requests ∧
    closedOnlyFrom db (completeRequest db caller reqId notes2).2.requests ∧
    closedOnlyFrom db (cancelRequest db caller reqId).2.requests ∧
    closedOnlyFrom db (adminReopenCompletion db adminId ip complId notes).2.requests ∧
    (createApplication db caller gameId t d price).2.requests = db.requests ∧
    (updateApplication db caller appId t d price).2.requests = db.requests ∧
    (approveApplication db adminId ip appId notes).2.requests = db.requests ∧
    (postChatMessage db caller reqId msg).2.requests = db.requests := by
  refine ⟨?_, ?_, ?_, ?_, ?_, ?_, ?_, ?_, ?_, ?_, ?_⟩
  · unfold createRequest
    split
    · exact closedOnlyFrom_refl db
    · cases hf : db.services.find? (fun s => s.id == psId) with
      | none => exact closedOnlyFrom_refl db
      | some s =>
        intro x hx hcl
        rcases List.mem_append.mp hx with h | h
        · exact ⟨x, h, rfl, hcl⟩
        · rcases List.mem_singleton.mp h with rfl
          exact absurd hcl (fun h => nomatch h)
  · unfold acceptRequest
    cases hf : db.requests.find? (fun x => x.id == reqId) with
    | none => exact closedOnlyFrom_refl db
    | some r =>
      dsimp only
      split
      · exact closedOnlyFrom_refl db
      · intro x hx hcl
        exact closed_of_mem_updateWhere hx (fun y => ⟨fun h => (nomatch h), rfl⟩) hcl
  · unfold confirmRequest
    cases hf : db.requests.find? (fun x => x.id == reqId) with
    | none => exact closedOnlyFrom_refl db
    | some r =>
      dsimp only
      split
      · exact closedOnlyFrom_refl db
      · split
        · exact closedOnlyFrom_refl db
        · intro x hx hcl
          exact closed_of_mem_updateWhere hx (fun y => ⟨fun h => (nomatch h), rfl⟩) hcl
  · unfold rejectRequest
    intro x hx hcl
    exact closed_of_mem_updateWhere hx (fun y => ⟨fun h => (nomatch h), rfl⟩) hcl
  · unfold completeRequest
    cases hf : db.requests.find? (fun x => x.id == reqId) with
    | none => exact closedOnlyFrom_refl db
    | some r =>
      dsimp only
      split
      · exact closedOnlyFrom_refl db
      · split
        · exact closedOnlyFrom_refl db
        · intro x hx hcl
          exact closed_of_mem_updateWhere hx (fun y => ⟨fun h => (nomatch h), rfl⟩) hcl
  · unfold cancelRequest
    cases hf : db.requests.find? (fun x => x.id == reqId) with
    | none => exact closedOnlyFrom_refl db
    | some r =>
      dsimp only
      split
      · exact closedOnlyFrom_refl db
      · intro x hx hcl
        exact closed_of_mem_updateWhere hx (fun y => ⟨fun h => (nomatch h), rfl⟩) hcl
  · unfold adminReopenCompletion
    cases hc : db.completions.find? (fun c => c.id == complId) with
    | none => exact closedOnlyFrom_refl db
    | some c =>
      dsimp only
      cases hr : db.requests.find? (fun r => r.id == c.service_request_id) with
      | none => exact closedOnlyFrom_refl db
      | some r =>
        intro x hx hcl
        exact closed_of_mem_updateWhere hx (fun y => ⟨fun h => (nomatch h), rfl⟩) hcl
  · unfold createApplication
    repeat first | rfl | split | dsimp only
  · unfold updateApplication
    repeat first | rfl | split | dsimp only
  · unfold approveApplication
    repeat first | rfl | split | dsimp only
  · unfold postChatMessage
    repeat first | rfl | split | dsimp only

/-- C2, amended, witness: from the only-source theorem applied to a
reject call on the demo state, the closed request 11 is certified to
have been closed already. -/
theorem closed_only_from_completion_approval_witness :
    ∃ r0 ∈ demoClosed.requests, r0.id = 11 ∧ r0.status = .closed :=
  (closed_only_from_completion_approval demoClosed 99 0 999 0 0 999 9 none none none
      "d" "n" "t" "x" "m" 25).2.2.2.1
    ⟨11, 10, 1, 2, "please boost", 25, .closed, some "will do", true, true⟩
    (by decide) (by decide)

/-- Characterization of `recordFailedLoginAttempt` when the user is the
row its id finds: the counter becomes `failed_login_attempts + 1`, and
the account is blocked exactly when that reaches the maximum. -/
theorem recordFailedLoginAttempt_spec (users : List AuthUser) (u : AuthUser)
    (hfu : users.find? (fun v => v.id == u.id) = some u) :
    recordFailedLoginAttempt users u.id =
      if MAX_LOGIN_ATTEMPTS ≤ u.failed_login_attempts + 1 then
        ((true, 0),
         updateWhere (fun v => v.id == u.id)
           (fun v => { v with account_status := .blocked })
           (updateWhere (fun v => v.id == u.id)
             (fun v => { v with failed_login_attempts := v.failed_login_attempts + 1 })
             users))
      else
        ((false, MAX_LOGIN_ATTEMPTS - (u.failed_login_attempts + 1)),
         updateWhere (fun v => v.id == u.id)
           (fun v => { v with failed_login_attempts := v.failed_login_attempts + 1 })
           users) := by
  simp only [recordFailedLoginAttempt]
  rw [find?_updateWhere (fun v => v.id == u.id)
      (fun v => { v with failed_login_attempts := v.failed_login_attempts + 1 })
      (fun v => rfl) users, hfu]
  rfl

/-- C4.  Failed-login blocking is permanent within the login endpoint:
a blocked account answers the blocked error with the password never
compared and the store untouched; an active account failing its third
consecutive attempt (two prior failures) is blocked in the store; and
only the explicit admin unblock operation resets the status to active
and the counter to zero. -/
theorem login_blocking_permanent (users : List AuthUser) (e p : String) (u : AuthUser)
    (he : (e == "") = false) (hp : (p == "") = false)
    (hve : validateEmail (jsTrim e) = true)
    (hvp : validatePassword (jsTrim p) = true)
    (hfind : users.find? (fun v => v.email == sanitizeInput (jsTrim e)) = some u) :
    (u.account_status = .blocked →
      login users e p =
        ⟨{ httpStatus := 403,
           error := some "Account is blocked due to too many failed login attempts. Please contact an administrator to unblock your account.",
           blocked := true }, false, users⟩) ∧
    (u.account_status = .active → (jsTrim p == u.password) = false →
      2 ≤ u.failed_login_attempts →
      users.Pairwise (fun a b => a.id ≠ b.id) →
      (login users e p).resp =
        { httpStatus := 403,
          error := some "Account has been blocked due to too many failed login attempts. Please contact an administrator.",
          blocked := true } ∧
      (login users e p).users.find? (fun v => v.id == u.id) =
        some { u with failed_login_attempts := u.failed_login_attempts + 1,
                      account_status := .blocked }) ∧
    (users.Pairwise (fun a b => a.id ≠ b.id) →
      (adminUnblockUser users u.id).find? (fun v => v.id == u.id) =
        some { u with account_status := .active, failed_login_attempts := 0 }) := by
  refine ⟨?_, ?_, ?_⟩
  · intro hb
    simp [login, he, hp, hve, hvp, hfind, hb]
  · intro ha hm hf2 hpw
    have hfu : users.find? (fun v => v.id == u.id) = some u :=
      find?_of_pairwise_key (fun x => x.id) users hpw _ u hfind
    have hrec := recordFailedLoginAttempt_spec users u hfu
    rw [if_pos (show MAX_LOGIN_ATTEMPTS ≤ u.failed_login_attempts + 1 by
      rw [show MAX_LOGIN_ATTEMPTS = 3 from rfl]; omega)] at hrec
    constructor
    · simp [login, he, hp, hve, hvp, hfind, ha, hm, hrec]
    · have hst : (login users e p).users =
          updateWhere (fun v => v.id == u.id)
            (fun v => { v with account_status := .blocked })
            (updateWhere (fun v => v.id == u.id)
              (fun v => { v with failed_login_attempts := v.failed_login_attempts + 1 })
              users) := by
        simp [login, he, hp, hve, hvp, hfind, ha, hm, hrec]
      rw [hst,
        find?_updateWhere (fun v => v.id == u.id)
          (fun (v : AuthUser) => { v with account_status := AccountStatus.blocked })
          (fun v => rfl)
          (updateWhere (fun v => v.id == u.id)
            (fun v => { v with failed_login_attempts := v.failed_login_attempts + 1 })
            users),
        find?_updateWhere (fun v => v.id == u.id)
          (fun (v : AuthUser) => { v with failed_login_attempts := v.failed_login_attempts + 1 })
          (fun v => rfl) users,
        hfu]
      rfl
  · intro hpw
    have hfu : users.find? (fun v => v.id == u.id) = some u :=
      find?_of_pairwise_key (fun x => x.id) users hpw _ u hfind
    unfold adminUnblockUser
    rw [find?_updateWhere (fun v => v.id == u.id)
        (fun v => { v with account_status := .active, failed_login_attempts := 0 })
        (fun v => rfl) users, hfu]
    rfl

/-- C4, witness: with the single blocked account, the correct password
still answers the blocked error without any comparison; with an active
account at two failures, a third wrong password blocks it; the admin
unblock resets it. -/
theorem login_blocking_permanent_witness :
    login [⟨1, "a@b.co", "hunter123", "Alice", false, .blocked, 3⟩] "a@b.co" "hunter123" =
      ⟨{ httpStatus := 403,
         error := some "Account is blocked due to too many failed login attempts. Please contact an administrator to unblock your account.",
         blocked := true }, false,
       [⟨1, "a@b.co", "hunter123", "Alice", false, .blocked, 3⟩]⟩ ∧
    (login [⟨1, "a@b.co", "hunter123", "Alice", false, .active, 2⟩] "a@b.co" "wrongpass1").users.find?
        (fun v => v.id == 1) =
      some ⟨1, "a@b.co", "hunter123", "Alice", false, .blocked, 3⟩ ∧
    (adminUnblockUser [⟨1, "a@b.co", "hunter123", "Alice", false, .blocked, 3⟩] 1).find?
        (fun v => v.id == 1) =
      some ⟨1, "a@b.co", "hunter123", "Alice", false, .active, 0⟩ :=
  ⟨(login_blocking_permanent [⟨1, "a@b.co", "hunter123", "Alice", false, .blocked, 3⟩]
      "a@b.co" "hunter123" ⟨1, "a@b.co", "hunter123", "Alice", false, .blocked, 3⟩
      (by decide) (by decide) (by decide) (by decide) rfl).1 rfl,
   ((login_blocking_permanent [⟨1, "a@b.co", "hunter123", "Alice", false, .active, 2⟩]
      "a@b.co" "wrongpass1" ⟨1, "a@b.co", "hunter123", "Alice", false, .active, 2⟩
      (by decide) (by decide) (by decide) (by decide) rfl).2.1 rfl (by decide)
      (by decide) (by simp)).2,
   (login_blocking_permanent [⟨1, "a@b.co", "hunter123", "Alice", false, .blocked, 3⟩]
      "a@b.co" "hunter123" ⟨1, "a@b.co", "hunter123", "Alice", false, .blocked, 3⟩
      (by decide) (by decide) (by decide) (by decide) rfl).2.2 (by simp)⟩

/-- C7, amended.  Unknown email and wrong password under the threshold
answer the same 401 status and the same error string, but they are
distinguishable: the unknown email always reports `attemptsRemaining`
3 while the wrong password reports 3 minus the updated failure count,
which is strictly smaller. -/
theorem login_unknown_vs_wrong_password (users : List AuthUser)
    (e1 p1 e2 p2 : String) (u : AuthUser)
    (he1 : (e1 == "") = false) (hp1 : (p1 == "") = false)
    (hve1 : validateEmail (jsTrim e1) = true)
    (hvp1 : validatePassword (jsTrim p1) = true)
    (hnone : users.find? (fun v => v.email == sanitizeInput (jsTrim e1)) = none)
    (he2 : (e2 == "") = false) (hp2 : (p2 == "") = false)
    (hve2 : validateEmail (jsTrim e2) = true)
    (hvp2 : validatePassword (jsTrim p2) = true)
    (hfind : users.find? (fun v => v.email == sanitizeInput (jsTrim e2)) = some u)
    (ha : u.account_status = .active)
    (hm : (jsTrim p2 == u.password) = false)
    (hlt : u.failed_login_attempts + 1 < MAX_LOGIN_ATTEMPTS)
    (hpw : users.Pairwise (fun a b => a.id ≠ b.id)) :
    (login users e1 p1).resp =
      { httpStatus := 401, error := some "Invalid credentials",
        attemptsRemaining := some MAX_LOGIN_ATTEMPTS } ∧
    (login users e2 p2).resp =
      { httpStatus := 401, error := some "Invalid credentials",
        attemptsRemaining := some (MAX_LOGIN_ATTEMPTS - (u.failed_login_attempts + 1)) } ∧
    (login users e1 p1).resp.error = (login users e2 p2).resp.error ∧
    (login users e1 p1).resp ≠ (login users e2 p2).resp := by
  have r1 : (login users e1 p1).resp =
      { httpStatus := 401, error := some "Invalid credentials",
        attemptsRemaining := some MAX_LOGIN_ATTEMPTS } := by
    simp [login, he1, hp1, hve1, hvp1, hnone]
  have hfu : users.find? (fun v => v.id == u.id) = some u :=
    find?_of_pairwise_key (fun x => x.id) users hpw _ u hfind
  have hrec := recordFailedLoginAttempt_spec users u hfu
  rw [if_neg (show ¬ MAX_LOGIN_ATTEMPTS ≤ u.failed_login_attempts + 1 by
    rw [show MAX_LOGIN_ATTEMPTS = 3 from rfl]
    rw [show MAX_LOGIN_ATTEMPTS = 3 from rfl] at hlt
    omega)] at hrec
  have r2 : (login users e2 p2).resp =
      { httpStatus := 401, error := some "Invalid credentials",
        attemptsRemaining := some (MAX_LOGIN_ATTEMPTS - (u.failed_login_attempts + 1)) } := by
    simp [login, he2, hp2, hve2, hvp2, hfind, ha, hm, hrec]
  refine ⟨r1, r2, by rw [r1, r2], ?_⟩
  rw [r1, r2]
  intro hc
  have h4 := Option.some.inj (congrArg LoginResponse.attemptsRemaining hc)
  rw [show MAX_LOGIN_ATTEMPTS = 3 from rfl] at h4 hlt
  omega

/-- C7, amended, witness: against the one-user store, the unknown email
reports 3 attempts remaining, the wrong password reports 2, and the
responses differ. -/
theorem login_unknown_vs_wrong_password_witness :
    (login demoAuthUsers "x@y.co" "password1").resp ≠
      (login demoAuthUsers "a@b.co" "password1").resp :=
  (login_unknown_vs_wrong_password demoAuthUsers "x@y.co" "password1" "a@b.co" "password1"
    ⟨1, "a@b.co", "hunter123", "Alice", false, .active, 0⟩
    (by decide) (by decide) (by decide) (by decide) rfl
    (by decide) (by decide) (by decide) (by decide) rfl
    rfl (by decide) (by decide) (by simp [demoAuthUsers])).2.2.2

end GamerHelpers
